import Mathlib

/-!
Shallow embedding of `src/airflow_mcp_iap/iap_auth.py` (`IAPTokenProvider`).

This file models the token-provider component of the repository: the
`IAPTokenProvider` class with its in-memory credential, on-disk cache file,
per-instance `threading.Lock`, stop event and background refresh loop.

Modelling conventions:
* Wall-clock instants are `Nat` (seconds since some epoch).  Python's
  `datetime.utcnow() >= e - timedelta(seconds=k)` is rendered as
  `e ≤ now + k` to avoid truncated `Nat` subtraction.
* Network interactions (`Credentials.refresh(Request())`, the interactive
  OAuth flow, the two `requests.post` calls of `get_token`) are
  nondeterministic; their results are supplied as explicit oracle
  arguments.  The returned `Trace` counts how many of each network call a
  run actually performed.
* `self._lock` is `threading.Lock()`, which is NOT reentrant: a thread
  acquiring it while it already holds it blocks forever.  This is modelled
  by the `Outcome.deadlock` result: a `with self._lock:` entry taken while
  `lockHeld = true` never returns.
* A Python exception that propagates is `Outcome.error msg`; the exact
  message text is abbreviated but distinct per raise site.
* The `"invalid_grant" in str(e).lower()` test of `_refresh_token` is
  abstracted by a boolean carried on the failure outcome.
* Disk I/O in `_save_credentials` may fail; a boolean oracle `diskOk`
  selects success or an exception inside the `try` (which the method
  catches).  JSON bodies of token-endpoint responses are modelled as a
  status, an optional `id_token` field and an optional OAuth `error`
  field; the code only ever reads the status and the `id_token` field.
-/

namespace IapAuth

/-- The `google.oauth2.credentials.Credentials` object held in
`self._credentials`: access token, refresh token and expiry, as used by
`iap_auth.py`. -/
structure Credentials where
  token : Option String
  refreshToken : Option String
  expiry : Option Nat
  deriving Repr, DecidableEq

/-- Clock-skew threshold of the google-auth library (225 seconds): a
credential counts as `expired` that long before its nominal expiry.
Modelled from the google-auth library used by the source. -/
def refreshThreshold : Nat := 225

/-- The `Credentials.expired` property of the google-auth library: false when there is
no expiry, otherwise true iff `utcnow >= expiry - 225s`. -/
def Credentials.expired (c : Credentials) (now : Nat) : Bool :=
  match c.expiry with
  | none => false
  | some e => e ≤ now + refreshThreshold

/-- The `Credentials.valid` property of the google-auth library:
`self.token is not None and not self.expired`. -/
def Credentials.valid (c : Credentials) (now : Nat) : Bool :=
  c.token.isSome && !(c.expired now)

/-- Effect of a successful `self._credentials.refresh(Request())`: the
access token and expiry are replaced, the refresh token is preserved. -/
def Credentials.doRefresh (c : Credentials) (tok : String) (exp : Option Nat) :
    Credentials :=
  { c with token := some tok, expiry := exp }

/-- State of one `IAPTokenProvider` instance: `self._credentials`,
`self._token_expiry`, the on-disk cache file (`None` = absent),
whether `self._lock` is currently held, and `self._stop_refresh`. -/
structure ProviderState where
  credentials : Option Credentials
  tokenExpiry : Option Nat
  cacheFile : Option Credentials
  lockHeld : Bool
  stopSet : Bool
  deriving Repr, DecidableEq

/-- Result of running a method: normal return, a propagating Python
exception, or blocking forever on a non-reentrant lock acquisition. -/
inductive Outcome (α : Type) where
  | ok (a : α)
  | error (msg : String)
  | deadlock
  deriving Repr, DecidableEq

/-- Counts of the network calls a run performed: interactive OAuth consent
flows (`flow.run_local_server`), renewal calls
(`self._credentials.refresh(Request())`), and POSTs to the token endpoint
inside `get_token`. -/
structure Trace where
  consentCalls : Nat
  renewNetCalls : Nat
  exchangePosts : Nat
  deriving Repr, DecidableEq

def Trace.zero : Trace := ⟨0, 0, 0⟩

def Trace.plus (a b : Trace) : Trace :=
  ⟨a.consentCalls + b.consentCalls, a.renewNetCalls + b.renewNetCalls,
    a.exchangePosts + b.exchangePosts⟩

/-- Oracle for one interactive OAuth flow (`flow.run_local_server`):
either the credentials it produces, or a failure; the boolean on failure
records whether the exception text contains `invalid_grant` (lowercased),
which `_refresh_token`'s handler tests for. -/
inductive FlowOutcome where
  | success (c : Credentials)
  | failure (mentionsInvalidGrant : Bool)
  deriving Repr, DecidableEq

/-- Oracle for one `self._credentials.refresh(Request())` network call. -/
inductive RefreshOutcome where
  | success (newToken : String) (newExpiry : Option Nat)
  | failure (mentionsInvalidGrant : Bool)
  deriving Repr, DecidableEq

/-- A token-endpoint HTTP response as observed by `get_token`: the status
code, the optional `id_token` field of the JSON body, and the optional
OAuth `error` field of the body.  The code reads only `status` and
`idToken`; `errorField` records what kind of rejection the provider
issued, for use in specification-level statements. -/
structure HttpResponse where
  status : Nat
  idToken : Option String
  errorField : Option String
  deriving Repr, DecidableEq

/-- Method `_update_expiry_from_credentials` (lines 212-218): copy the
credential's expiry into `self._token_expiry`, defaulting to one hour
from now when the credential or its expiry is absent. -/
def updateExpiryFromCredentials (s : ProviderState) (now : Nat) : ProviderState :=
  match s.credentials with
  | some c =>
    match c.expiry with
    | some e => { s with tokenExpiry := some e }
    | none => { s with tokenExpiry := some (now + 3600) }
  | none => { s with tokenExpiry := some (now + 3600) }

/-- Method `_save_credentials` (lines 133-161): writes the whole credential
record to the cache file; the entire body is inside `try/except`, so a
disk failure (or an absent credential, whose attribute access raises) is
logged and swallowed — the method never raises and on failure leaves the
file as it was. -/
def saveCredentials (s : ProviderState) (diskOk : Bool) : ProviderState :=
  if diskOk then
    match s.credentials with
    | some c => { s with cacheFile := some c }
    | none => s
  else s

/-- Method `_perform_oauth_flow` (lines 163-210): run the interactive flow; on
success store the credentials, save them to disk and update the expiry;
on any exception raise `RuntimeError` (the flow method itself takes no
lock).  Returns the outcome, the new state and the trace (always exactly
one consent attempt). -/
def performOauthFlow (s : ProviderState) (now : Nat) (fo : FlowOutcome)
    (diskOk : Bool) : Outcome Unit × ProviderState × Trace :=
  match fo with
  | .success c =>
    let s1 := { s with credentials := some c }
    let s2 := saveCredentials s1 diskOk
    let s3 := updateExpiryFromCredentials s2 now
    (.ok (), s3, ⟨1, 0, 0⟩)
  | .failure _ => (.error "Failed to authenticate with Google", s, ⟨1, 0, 0⟩)

/-- The `except Exception` handler of `_refresh_token` (lines 249-259):
when the exception text contains `invalid_grant`, drop the in-memory
credential and delete the cache file (no-op when absent); otherwise only
log.  Never re-raises. -/
def refreshFailureHandler (s : ProviderState) (mentionsInvalidGrant : Bool) :
    ProviderState :=
  if mentionsInvalidGrant then { s with credentials := none, cacheFile := none }
  else s

/-- Body of `_refresh_token` (lines 223-259), i.e. everything inside
`with self._lock:`: early return when there is no credential or it is
still `valid`; re-run the OAuth flow when there is no refresh token
(its `RuntimeError` is caught by this method's own handler); otherwise
perform one renewal network call and either store+save the result or run
the failure handler.  Never raises. -/
def refreshTokenBody (s : ProviderState) (now : Nat) (ro : RefreshOutcome)
    (fo : FlowOutcome) (diskOk : Bool) : ProviderState × Trace :=
  match s.credentials with
  | none => (s, Trace.zero)
  | some c =>
    if c.valid now then (s, Trace.zero)
    else
      match c.refreshToken with
      | none =>
        match performOauthFlow s now fo diskOk with
        | (.ok _, s1, tr) => (s1, tr)
        | (.error _, s1, tr) =>
          (refreshFailureHandler s1 (match fo with
            | .failure b => b
            | .success _ => false), tr)
        | (.deadlock, s1, tr) => (s1, tr)
      | some _ =>
        match ro with
        | .success tok exp =>
          let s1 := { s with credentials := some (c.doRefresh tok exp) }
          let s2 := saveCredentials s1 diskOk
          let s3 := updateExpiryFromCredentials s2 now
          (s3, ⟨0, 1, 0⟩)
        | .failure ig => (refreshFailureHandler s ig, ⟨0, 1, 0⟩)

/-- Method `_refresh_token` (lines 220-259): acquires `self._lock` — a
non-reentrant `threading.Lock` — so a call made while the same instance
lock is already held blocks forever (`deadlock`); otherwise runs the body
under the lock and releases it. -/
def refreshToken (s : ProviderState) (now : Nat) (ro : RefreshOutcome)
    (fo : FlowOutcome) (diskOk : Bool) : Outcome Unit × ProviderState × Trace :=
  if s.lockHeld then (.deadlock, s, Trace.zero)
  else
    let (s1, tr) := refreshTokenBody { s with lockHeld := true } now ro fo diskOk
    (.ok (), { s1 with lockHeld := false }, tr)

/-- The falsiness test of line 310, second disjunct:
`not self._credentials.token` is true for `None` and for the empty
string. -/
def tokenFalsy (c : Credentials) : Bool :=
  match c.token with
  | none => true
  | some t => t = ""

/-- The guard of line 310 as a whole:
`not self._credentials or not self._credentials.token`. -/
def credentialsUnusable (oc : Option Credentials) : Bool :=
  match oc with
  | none => true
  | some c => tokenFalsy c

/-- Lines 310-374 of `get_token`: the guard raising
`RuntimeError("Failed to obtain valid credentials")` before any POST,
then the exchange: POST with the `audience` parameter (`r1`); on any
non-200 status POST once more without `audience` (`r2`) and
`raise_for_status()` (raises for status ≥ 400); finally return the
`id_token` field of the standing response or raise.  Exceptions inside
the `try` are re-raised wrapped in `RuntimeError`.  No provider state is
mutated here. -/
def exchangePhase (oc : Option Credentials) (r1 r2 : HttpResponse) :
    Outcome String × Trace :=
  if credentialsUnusable oc then
    (.error "Failed to obtain valid credentials", Trace.zero)
  else
    if r1.status ≠ 200 then
      if 400 ≤ r2.status then
        (.error "Failed to obtain IAP ID token", ⟨0, 0, 2⟩)
      else
        match r2.idToken with
        | some t => (.ok t, ⟨0, 0, 2⟩)
        | none => (.error "Failed to obtain IAP ID token", ⟨0, 0, 2⟩)
    else
      match r1.idToken with
      | some t => (.ok t, ⟨0, 0, 1⟩)
      | none => (.error "Failed to obtain IAP ID token", ⟨0, 0, 1⟩)

/-- Oracle for one `get_token` call: the OAuth-flow outcome and disk
result used when no credential exists (line 295), the renewal-call oracle
for the `_refresh_token` invocations of lines 300 and 308 (never consumed
in fact, because those invocations deadlock on the already-held lock),
and the two token-endpoint responses. -/
structure GetTokenOracle where
  flowOutcome : FlowOutcome
  flowDiskOk : Bool
  refreshOutcome : RefreshOutcome
  refreshFlowOutcome : FlowOutcome
  refreshDiskOk : Bool
  r1 : HttpResponse
  r2 : HttpResponse
  deriving Repr, DecidableEq

/-- Sequencing of two statements of `get_token`: when the first returns
normally run the continuation and accumulate the traces; a propagating
exception or a deadlock in the first ends the call there. -/
def seqStep {α : Type} (r : Outcome Unit × ProviderState × Trace)
    (k : ProviderState → Outcome α × ProviderState × Trace) :
    Outcome α × ProviderState × Trace :=
  match r with
  | (.ok _, s, t) =>
    match k s with
    | (res, s1, t1) => (res, s1, t.plus t1)
  | (.error m, s, t) => (.error m, s, t)
  | (.deadlock, s, t) => (.deadlock, s, t)

/-- Lines 293-295 of `get_token`: run the OAuth flow when no credential
exists, otherwise do nothing. -/
def ensureCredentialsStep (s : ProviderState) (now : Nat) (fo : FlowOutcome)
    (diskOk : Bool) : Outcome Unit × ProviderState × Trace :=
  match s.credentials with
  | none => performOauthFlow s now fo diskOk
  | some _ => (.ok (), s, Trace.zero)

/-- Lines 297-300 of `get_token`: call `_refresh_token` when
`self._credentials.expired` (an absent credential here would raise an
attribute error).  The `_refresh_token` call re-acquires the instance
lock. -/
def expiredCheckStep (s : ProviderState) (now : Nat) (o : GetTokenOracle) :
    Outcome Unit × ProviderState × Trace :=
  match s.credentials with
  | none => (.error "AttributeError", s, Trace.zero)
  | some c =>
    if c.expired now then
      refreshToken s now o.refreshOutcome o.refreshFlowOutcome o.refreshDiskOk
    else (.ok (), s, Trace.zero)

/-- Lines 302-308 of `get_token`: call `_refresh_token` again when
`self._token_expiry` is set and `now ≥ self._token_expiry − 300 s`.
The call re-acquires the instance lock. -/
def bufferCheckStep (s : ProviderState) (now : Nat) (o : GetTokenOracle) :
    Outcome Unit × ProviderState × Trace :=
  match s.tokenExpiry with
  | some e =>
    if e ≤ now + 300 then
      refreshToken s now o.refreshOutcome o.refreshFlowOutcome o.refreshDiskOk
    else (.ok (), s, Trace.zero)
  | none => (.ok (), s, Trace.zero)

/-- Body of `get_token` (lines 292-374), executed while `self._lock` is
held: ensure a credential exists, the two refresh checks, then the
line-310 guard and the audience exchange. -/
def getTokenBody (s : ProviderState) (now : Nat) (o : GetTokenOracle) :
    Outcome String × ProviderState × Trace :=
  seqStep (ensureCredentialsStep s now o.flowOutcome o.flowDiskOk) fun s1 =>
  seqStep (expiredCheckStep s1 now o) fun s2 =>
  seqStep (bufferCheckStep s2 now o) fun s3 =>
  match exchangePhase s3.credentials o.r1 o.r2 with
  | (res, t4) => (res, s3, t4)

/-- Method `get_token` (lines 281-374): acquire the non-reentrant instance lock
(blocking forever if this thread already holds it), run the body, and —
via the `with` statement — release the lock on normal return and on a
propagating exception, but never on a deadlock inside the body. -/
def getToken (s : ProviderState) (now : Nat) (o : GetTokenOracle) :
    Outcome String × ProviderState × Trace :=
  if s.lockHeld then (.deadlock, s, Trace.zero)
  else
    match getTokenBody { s with lockHeld := true } now o with
    | (.deadlock, s1, tr) => (.deadlock, s1, tr)
    | (.ok a, s1, tr) => (.ok a, { s1 with lockHeld := false }, tr)
    | (.error m, s1, tr) => (.error m, { s1 with lockHeld := false }, tr)

/-- Method `clear_cache` (lines 376-382): under the lock, delete the cache file
if present and drop the in-memory credential. -/
def clearCache (s : ProviderState) : Outcome Unit × ProviderState :=
  if s.lockHeld then (.deadlock, s)
  else (.ok (), { s with cacheFile := none, credentials := none })

/-- Method `stop` (lines 384-389): set the stop event and join the background
thread with a 5-second timeout; no exception is possible and no other
provider state changes. -/
def stop (s : ProviderState) : ProviderState := { s with stopSet := true }

/-- Oracle for one iteration of the background loop: the clock at that
tick, whether the stop event got set during the interruptible
`wait(timeout=refresh_interval)`, and the oracles of the tick's
`_refresh_token` call. -/
structure TickOracle where
  now : Nat
  stopDuringWait : Bool
  refreshOutcome : RefreshOutcome
  flowOutcome : FlowOutcome
  diskOk : Bool
  deriving Repr, DecidableEq

/-- Method `_refresh_loop` (lines 261-271), run with fuel (the oracle list):
exit as soon as the stop event is observed — either by the `while` test
or by `wait` returning true — otherwise perform one `_refresh_token`
tick (its exceptions are caught and logged) and continue.  Returns the
final state and the number of renewal ticks executed, or `none` when a
tick deadlocks (the thread would hang forever). -/
def refreshLoop (s : ProviderState) :
    List TickOracle → Option (ProviderState × Nat)
  | [] => some (s, 0)
  | t :: ts =>
    if s.stopSet then some (s, 0)
    else if t.stopDuringWait then some ({ s with stopSet := true }, 0)
    else
      match refreshToken s t.now t.refreshOutcome t.flowOutcome t.diskOk with
      | (.deadlock, _, _) => none
      | (.ok _, s1, _) =>
        match refreshLoop s1 ts with
        | some (s2, n) => some (s2, n + 1)
        | none => none
      | (.error _, s1, _) =>
        match refreshLoop s1 ts with
        | some (s2, n) => some (s2, n + 1)
        | none => none

/-! ## Concrete inputs used by individual claim theorems -/

/-- A credential expiring at t = 1000, with access and refresh tokens. -/
def c1Cred : Credentials := ⟨some "at", some "rt", some 1000⟩

/-- Provider state holding `c1Cred` in memory and on disk, lock free. -/
def c1State : ProviderState := ⟨some c1Cred, some 1000, some c1Cred, false, false⟩

/-- A benign oracle: every network interaction would succeed. -/
def c1Oracle : GetTokenOracle :=
  ⟨.success c1Cred, true, .success "x" none, .success c1Cred, true,
    ⟨200, some "idt", none⟩, ⟨200, some "idt2", none⟩⟩

/-- A fresh credential expiring at t = 100000. -/
def c2Cred : Credentials := ⟨some "at", some "rt", some 100000⟩

/-- Provider state holding `c2Cred`, lock free. -/
def c2State : ProviderState :=
  ⟨some c2Cred, some 100000, some c2Cred, false, false⟩

/-- Oracle whose first exchange response is an HTTP 500 whose body's
OAuth error field is `internal_error` — a rejection that on its face has
nothing to do with the `audience` parameter — and whose second response
grants a token. -/
def c2Oracle : GetTokenOracle :=
  ⟨.success c2Cred, true, .success "x" none, .success c2Cred, true,
    ⟨500, none, some "internal_error"⟩, ⟨200, some "fallback-id", none⟩⟩

/-- A credential expiring at t = 2000. -/
def c7Cred : Credentials := ⟨some "at", some "rt", some 2000⟩

/-- Provider state holding `c7Cred`, lock free. -/
def c7State : ProviderState := ⟨some c7Cred, some 2000, some c7Cred, false, false⟩

/-- A benign oracle for the `c7State` run. -/
def c7Oracle : GetTokenOracle :=
  ⟨.success c7Cred, true, .success "y" none, .success c7Cred, true,
    ⟨200, some "idt", none⟩, ⟨200, some "idt2", none⟩⟩

/-- An expired credential (expiry at t = 1000) used by the C3 run. -/
def c3Cred : Credentials := ⟨some "at", some "rt", some 1000⟩

/-- Provider state holding `c3Cred`, lock free. -/
def c3State : ProviderState := ⟨some c3Cred, some 1000, some c3Cred, false, false⟩

/-- An expired credential used by the C4 run. -/
def c4Cred : Credentials := ⟨some "at", some "rt", some 1000⟩

/-- Provider state holding `c4Cred`, lock free. -/
def c4State : ProviderState := ⟨some c4Cred, some 1000, some c4Cred, false, false⟩

/-- Oracle for the `get_token` call following the C4 invalidation. -/
def c4Oracle : GetTokenOracle :=
  ⟨.success ⟨some "new", some "nrt", some 99999⟩, true, .success "x" none,
    .success c4Cred, true, ⟨200, some "idt", none⟩, ⟨200, some "idt2", none⟩⟩

/-- A fresh, valid credential expiring at t = 10000. -/
def c5Cred : Credentials := ⟨some "at", some "rt", some 10000⟩

/-- Provider state holding `c5Cred`, lock free. -/
def c5State : ProviderState := ⟨some c5Cred, some 10000, some c5Cred, false, false⟩

/-- A benign oracle whose first exchange response succeeds. -/
def c5Oracle : GetTokenOracle :=
  ⟨.success c5Cred, true, .success "x" none, .success c5Cred, true,
    ⟨200, some "the-id-token", none⟩, ⟨200, some "other", none⟩⟩

/-- An arbitrary non-trivial prior state for the C6 run. -/
def c6State : ProviderState :=
  ⟨some ⟨some "old", some "ort", some 50⟩, some 50,
    some ⟨some "old", some "ort", some 50⟩, false, false⟩

/-- Oracle for the `get_token` call after `clear_cache` in the C6 run. -/
def c6Oracle : GetTokenOracle :=
  ⟨.success ⟨some "fresh", some "frt", some 77777⟩, true, .success "x" none,
    .success ⟨some "fresh", some "frt", some 77777⟩, true,
    ⟨200, some "idt", none⟩, ⟨200, some "idt2", none⟩⟩

/-- The credential produced by the consent flow in the C9 run. -/
def c9Cred : Credentials := ⟨some "flowtok", some "flowrt", some 4000⟩

/-- An expired credential for the renewal half of the C9 run. -/
def c9Old : Credentials := ⟨some "stale", some "rt9", some 1000⟩

/-- Provider state holding `c9Old`, lock free. -/
def c9State : ProviderState := ⟨some c9Old, some 1000, some c9Old, false, false⟩

/-- A credential whose access token is absent (no expiry either). -/
def c10Cred : Credentials := ⟨none, some "rt10", none⟩

/-- Provider state holding `c10Cred` with `_token_expiry` unset. -/
def c10State : ProviderState := ⟨some c10Cred, none, none, false, false⟩

/-- A benign oracle for the C10 run. -/
def c10Oracle : GetTokenOracle :=
  ⟨.success c10Cred, true, .success "x" none, .success c10Cred, true,
    ⟨200, some "idt", none⟩, ⟨200, some "idt2", none⟩⟩

/-! ## Support lemmas -/

theorem saveCredentials_of_diskFail (s : ProviderState) :
    saveCredentials s false = s := rfl

theorem saveCredentials_lockHeld (s : ProviderState) (dk : Bool) :
    (saveCredentials s dk).lockHeld = s.lockHeld := by
  unfold saveCredentials
  repeat' split
  all_goals rfl

theorem saveCredentials_credentials (s : ProviderState) (dk : Bool) :
    (saveCredentials s dk).credentials = s.credentials := by
  unfold saveCredentials
  repeat' split
  all_goals rfl

theorem updateExpiry_lockHeld (s : ProviderState) (now : Nat) :
    (updateExpiryFromCredentials s now).lockHeld = s.lockHeld := by
  unfold updateExpiryFromCredentials
  repeat' split
  all_goals rfl

theorem updateExpiry_credentials (s : ProviderState) (now : Nat) :
    (updateExpiryFromCredentials s now).credentials = s.credentials := by
  unfold updateExpiryFromCredentials
  repeat' split
  all_goals rfl

theorem updateExpiry_cacheFile (s : ProviderState) (now : Nat) :
    (updateExpiryFromCredentials s now).cacheFile = s.cacheFile := by
  unfold updateExpiryFromCredentials
  repeat' split
  all_goals rfl

theorem performOauthFlow_failure (s : ProviderState) (now : Nat) (b : Bool)
    (dk : Bool) :
    performOauthFlow s now (.failure b) dk =
      (.error "Failed to authenticate with Google", s, ⟨1, 0, 0⟩) := rfl

theorem performOauthFlow_success (s : ProviderState) (now : Nat)
    (c : Credentials) (dk : Bool) :
    performOauthFlow s now (.success c) dk =
      (.ok (),
        updateExpiryFromCredentials
          (saveCredentials { s with credentials := some c } dk) now,
        ⟨1, 0, 0⟩) := rfl

theorem seqStep_ok {α : Type} (u : Unit) (s : ProviderState) (t : Trace)
    (k : ProviderState → Outcome α × ProviderState × Trace) :
    seqStep (.ok u, s, t) k = ((k s).1, (k s).2.1, t.plus (k s).2.2) := by
  unfold seqStep
  rcases h : k s with ⟨res, s1, t1⟩
  simp only [h]

theorem seqStep_error {α : Type} (m : String) (s : ProviderState) (t : Trace)
    (k : ProviderState → Outcome α × ProviderState × Trace) :
    seqStep (.error m, s, t) k = (.error m, s, t) := rfl

theorem seqStep_deadlock {α : Type} (s : ProviderState) (t : Trace)
    (k : ProviderState → Outcome α × ProviderState × Trace) :
    seqStep (.deadlock, s, t) k = (.deadlock, s, t) := rfl

theorem performOauthFlow_lockHeld (s : ProviderState) (now : Nat)
    (fo : FlowOutcome) (dk : Bool) :
    ((performOauthFlow s now fo dk).2.1).lockHeld = s.lockHeld := by
  cases fo with
  | success c =>
    rw [performOauthFlow_success, updateExpiry_lockHeld, saveCredentials_lockHeld]
  | failure b => rw [performOauthFlow_failure]

theorem refreshToken_deadlock_of_lockHeld (s : ProviderState) (now : Nat)
    (ro : RefreshOutcome) (fo : FlowOutcome) (dk : Bool)
    (h : s.lockHeld = true) :
    refreshToken s now ro fo dk = (.deadlock, s, Trace.zero) := by
  unfold refreshToken
  rw [if_pos h]

theorem ensureCredentialsStep_of_some (s : ProviderState) (now : Nat)
    (fo : FlowOutcome) (dk : Bool) (c : Credentials)
    (h : s.credentials = some c) :
    ensureCredentialsStep s now fo dk = (.ok (), s, Trace.zero) := by
  unfold ensureCredentialsStep
  rw [h]

theorem ensureCredentialsStep_of_none (s : ProviderState) (now : Nat)
    (fo : FlowOutcome) (dk : Bool) (h : s.credentials = none) :
    ensureCredentialsStep s now fo dk = performOauthFlow s now fo dk := by
  unfold ensureCredentialsStep
  rw [h]

theorem expiredCheckStep_frozen (s : ProviderState) (now : Nat)
    (o : GetTokenOracle) (h : s.lockHeld = true) :
    ∃ res, expiredCheckStep s now o = (res, s, Trace.zero) := by
  unfold expiredCheckStep
  cases hc : s.credentials with
  | none => exact ⟨_, rfl⟩
  | some c =>
    dsimp only
    cases he : c.expired now with
    | true =>
      rw [if_pos rfl, refreshToken_deadlock_of_lockHeld _ _ _ _ _ h]
      exact ⟨_, rfl⟩
    | false =>
      rw [if_neg Bool.false_ne_true]
      exact ⟨_, rfl⟩

theorem bufferCheckStep_frozen (s : ProviderState) (now : Nat)
    (o : GetTokenOracle) (h : s.lockHeld = true) :
    ∃ res, bufferCheckStep s now o = (res, s, Trace.zero) := by
  unfold bufferCheckStep
  cases hc : s.tokenExpiry with
  | none => exact ⟨_, rfl⟩
  | some e =>
    dsimp only
    by_cases he : e ≤ now + 300
    · rw [if_pos he, refreshToken_deadlock_of_lockHeld _ _ _ _ _ h]
      exact ⟨_, rfl⟩
    · rw [if_neg he]
      exact ⟨_, rfl⟩

theorem exchangePhase_consent (oc : Option Credentials) (r1 r2 : HttpResponse) :
    (exchangePhase oc r1 r2).2.consentCalls = 0 := by
  unfold exchangePhase
  repeat' split
  all_goals rfl

theorem exchangePhase_renew (oc : Option Credentials) (r1 r2 : HttpResponse) :
    (exchangePhase oc r1 r2).2.renewNetCalls = 0 := by
  unfold exchangePhase
  repeat' split
  all_goals rfl

/-- The trace of `get_token` is the trace of its locked body. -/
theorem getToken_trace (s : ProviderState) (now : Nat) (o : GetTokenOracle)
    (hl : s.lockHeld = false) :
    (getToken s now o).2.2 = (getTokenBody { s with lockHeld := true } now o).2.2 := by
  unfold getToken
  rw [if_neg (by rw [hl]; exact Bool.false_ne_true)]
  rcases h : getTokenBody { s with lockHeld := true } now o with ⟨res, s1, tr⟩
  cases res <;> rfl

/-- The result of `get_token` is the result of its locked body. -/
theorem getToken_result (s : ProviderState) (now : Nat) (o : GetTokenOracle)
    (hl : s.lockHeld = false) :
    (getToken s now o).1 = (getTokenBody { s with lockHeld := true } now o).1 := by
  unfold getToken
  rw [if_neg (by rw [hl]; exact Bool.false_ne_true)]
  rcases h : getTokenBody { s with lockHeld := true } now o with ⟨res, s1, tr⟩
  cases res <;> rfl

/-- Once `get_token` holds the lock, the two refresh checks and the
exchange contribute no consent-flow attempt: the `_refresh_token` calls
deadlock on the already-held lock and the exchange performs no consent. -/
theorem lockedTail_consent (s1 : ProviderState) (now : Nat) (o : GetTokenOracle)
    (h : s1.lockHeld = true) :
    (seqStep (expiredCheckStep s1 now o) (fun s2 =>
      seqStep (bufferCheckStep s2 now o) (fun s3 =>
        match exchangePhase s3.credentials o.r1 o.r2 with
        | (res, t4) => (res, s3, t4)))).2.2.consentCalls = 0 := by
  obtain ⟨res2, hres2⟩ := expiredCheckStep_frozen s1 now o h
  rw [hres2]
  cases res2 with
  | error m => rfl
  | deadlock => rfl
  | ok u =>
    rw [seqStep_ok]
    obtain ⟨res3, hres3⟩ := bufferCheckStep_frozen s1 now o h
    simp only [hres3]
    cases res3 with
    | error m => rfl
    | deadlock => rfl
    | ok v =>
      rw [seqStep_ok]
      rcases hx : exchangePhase s1.credentials o.r1 o.r2 with ⟨res4, t4⟩
      have h4 : t4.consentCalls = 0 := by
        have := exchangePhase_consent s1.credentials o.r1 o.r2
        rw [hx] at this
        exact this
      simp only [hx, Trace.plus, Trace.zero]
      simp [h4]

/-- Any `get_token` call entered without the lock held and with no
in-memory credential performs exactly one consent-flow attempt: the
flow of line 295 runs once, and no later step can run another. -/
theorem getToken_consent_once_of_no_credentials (s : ProviderState) (now : Nat)
    (o : GetTokenOracle) (h : s.credentials = none) (hl : s.lockHeld = false) :
    (getToken s now o).2.2.consentCalls = 1 := by
  have hs' : ({ s with lockHeld := true } : ProviderState).credentials = none := h
  rw [getToken_trace s now o hl]
  unfold getTokenBody
  rw [ensureCredentialsStep_of_none _ _ _ _ hs']
  cases hfo : o.flowOutcome with
  | failure b =>
    rw [performOauthFlow_failure, seqStep_error]
  | success c =>
    rw [performOauthFlow_success, seqStep_ok]
    simp only [Trace.plus]
    have hl1 : (updateExpiryFromCredentials
        (saveCredentials { s with lockHeld := true, credentials := some c }
          o.flowDiskOk) now).lockHeld = true := by
      rw [updateExpiry_lockHeld, saveCredentials_lockHeld]
    rw [lockedTail_consent _ now o hl1]

theorem expiredCheckStep_of_fresh (s : ProviderState) (now : Nat)
    (o : GetTokenOracle) (c : Credentials) (hc : s.credentials = some c)
    (hexp : c.expired now = false) :
    expiredCheckStep s now o = (.ok (), s, Trace.zero) := by
  unfold expiredCheckStep
  rw [hc]
  dsimp only
  rw [hexp, if_neg Bool.false_ne_true]

theorem bufferCheckStep_of_far (s : ProviderState) (now e : Nat)
    (o : GetTokenOracle) (he : s.tokenExpiry = some e) (hbuf : now + 300 < e) :
    bufferCheckStep s now o = (.ok (), s, Trace.zero) := by
  unfold bufferCheckStep
  rw [he]
  dsimp only
  rw [if_neg (by omega)]

theorem bufferCheckStep_of_none (s : ProviderState) (now : Nat)
    (o : GetTokenOracle) (he : s.tokenExpiry = none) :
    bufferCheckStep s now o = (.ok (), s, Trace.zero) := by
  unfold bufferCheckStep
  rw [he]

theorem expired_eq_false_of_valid (c : Credentials) (now : Nat)
    (h : c.valid now = true) : c.expired now = false := by
  simp only [Credentials.valid, Bool.and_eq_true, Bool.not_eq_true'] at h
  exact h.2

theorem token_isSome_of_valid (c : Credentials) (now : Nat)
    (h : c.valid now = true) : c.token.isSome = true := by
  simp only [Credentials.valid, Bool.and_eq_true, Bool.not_eq_true'] at h
  exact h.1

theorem credentialsUnusable_of_token (c : Credentials) (t : String)
    (h : c.token = some t) (hne : t ≠ "") :
    credentialsUnusable (some c) = false := by
  unfold credentialsUnusable tokenFalsy
  dsimp only
  rw [h]
  simp [hne]

/-- On a state whose credential is present, not `expired`, and whose
`_token_expiry` is either unset or more than the 5-minute buffer away,
`get_token` runs no consent flow and no renewal: its result and its
network activity are exactly those of the guard-plus-exchange phase. -/
theorem getToken_fresh_eval (s : ProviderState) (now : Nat) (c : Credentials)
    (o : GetTokenOracle) (hl : s.lockHeld = false) (hc : s.credentials = some c)
    (hexp : c.expired now = false)
    (hbuf : s.tokenExpiry = none ∨ ∃ e, s.tokenExpiry = some e ∧ now + 300 < e) :
    (getToken s now o).1 = (exchangePhase (some c) o.r1 o.r2).1 ∧
    (getToken s now o).2.2.consentCalls = 0 ∧
    (getToken s now o).2.2.renewNetCalls = 0 ∧
    (getToken s now o).2.2.exchangePosts =
      (exchangePhase (some c) o.r1 o.r2).2.exchangePosts := by
  have hc' : ({ s with lockHeld := true } : ProviderState).credentials = some c := hc
  have hb' : bufferCheckStep { s with lockHeld := true } now o =
      (.ok (), { s with lockHeld := true }, Trace.zero) := by
    rcases hbuf with hn | ⟨e, he, hlt⟩
    · exact bufferCheckStep_of_none _ now o hn
    · exact bufferCheckStep_of_far _ now e o he hlt
  rw [getToken_result s now o hl, getToken_trace s now o hl]
  unfold getTokenBody
  rw [ensureCredentialsStep_of_some _ _ _ _ _ hc']
  simp only [seqStep_ok]
  rw [expiredCheckStep_of_fresh _ _ _ _ hc' hexp]
  simp only [seqStep_ok]
  rw [hb']
  simp only [seqStep_ok]
  simp only [hc, hc']
  have h1 := exchangePhase_consent (some c) o.r1 o.r2
  have h2 := exchangePhase_renew (some c) o.r1 o.r2
  rcases hx : exchangePhase (some c) o.r1 o.r2 with ⟨res4, t4⟩
  rw [hx] at h1 h2
  have h1' : t4.consentCalls = 0 := h1
  have h2' : t4.renewNetCalls = 0 := h2
  simp [Trace.plus, Trace.zero, h1', h2']

theorem exchangePhase_unusable (oc : Option Credentials) (r1 r2 : HttpResponse)
    (h : credentialsUnusable oc = true) :
    exchangePhase oc r1 r2 =
      (.error "Failed to obtain valid credentials", Trace.zero) := by
  unfold exchangePhase
  rw [h, if_pos rfl]

theorem exchangePhase_fallback (c : Credentials) (r1 r2 : HttpResponse)
    (t : String) (hu : credentialsUnusable (some c) = false)
    (h1 : r1.status ≠ 200) (h2 : r2.status = 200) (ht : r2.idToken = some t) :
    exchangePhase (some c) r1 r2 = (.ok t, ⟨0, 0, 2⟩) := by
  unfold exchangePhase
  rw [hu, if_neg Bool.false_ne_true, if_pos h1, if_neg (by rw [h2]; omega), ht]

theorem exchangePhase_posts_of_usable (c : Credentials) (r1 r2 : HttpResponse)
    (hu : credentialsUnusable (some c) = false) :
    1 ≤ (exchangePhase (some c) r1 r2).2.exchangePosts := by
  unfold exchangePhase
  rw [hu, if_neg Bool.false_ne_true]
  repeat' split
  all_goals simp

/-- Evaluation of `_refresh_token` on a present, non-`valid` credential
with a refresh token, when the renewal network call fails: the exception
is caught, the failure handler runs, and the method returns normally
after exactly one renewal call. -/
theorem refreshToken_failure_eval (s : ProviderState) (now : Nat)
    (c : Credentials) (r : String) (ig : Bool) (fo : FlowOutcome) (dk : Bool)
    (hl : s.lockHeld = false) (hc : s.credentials = some c)
    (hv : c.valid now = false) (hr : c.refreshToken = some r) :
    refreshToken s now (.failure ig) fo dk =
      (.ok (),
        { (refreshFailureHandler { s with lockHeld := true } ig) with
            lockHeld := false },
        ⟨0, 1, 0⟩) := by
  have hb : refreshTokenBody { s with lockHeld := true } now (.failure ig) fo dk =
      (refreshFailureHandler { s with lockHeld := true } ig, ⟨0, 1, 0⟩) := by
    unfold refreshTokenBody
    dsimp only
    rw [hc]
    dsimp only
    rw [hv, if_neg Bool.false_ne_true, hr]
  unfold refreshToken
  rw [if_neg (by rw [hl]; exact Bool.false_ne_true), hb]

/-- Evaluation of `_refresh_token` on a present, non-`valid` credential
with a refresh token, when the renewal network call succeeds: the
refreshed credential is stored, saved and its expiry recorded, after
exactly one renewal call. -/
theorem refreshToken_success_eval (s : ProviderState) (now : Nat)
    (c : Credentials) (r tok : String) (exp : Option Nat) (fo : FlowOutcome)
    (dk : Bool) (hl : s.lockHeld = false) (hc : s.credentials = some c)
    (hv : c.valid now = false) (hr : c.refreshToken = some r) :
    refreshToken s now (.success tok exp) fo dk =
      (.ok (),
        { (updateExpiryFromCredentials
            (saveCredentials
              { s with
                  lockHeld := true,
                  credentials := some (c.doRefresh tok exp) } dk) now) with
            lockHeld := false },
        ⟨0, 1, 0⟩) := by
  have hb : refreshTokenBody { s with lockHeld := true } now (.success tok exp)
        fo dk =
      (updateExpiryFromCredentials
        (saveCredentials
          { s with
              lockHeld := true,
              credentials := some (c.doRefresh tok exp) } dk) now,
        ⟨0, 1, 0⟩) := by
    unfold refreshTokenBody
    dsimp only
    rw [hc]
    dsimp only
    rw [hv, if_neg Bool.false_ne_true, hr]
  unfold refreshToken
  rw [if_neg (by rw [hl]; exact Bool.false_ne_true), hb]

/-! ## Claim theorems -/

/-- C1: the claim asserts that for a credential with `now ≥ expiry − 5min`
`get_token` performs exactly one renewal network call and then the
audience exchange.  On the code this fails: `get_token` holds the
non-reentrant instance lock and `_refresh_token` re-acquires it, so the
call deadlocks before any renewal — here evaluated at a credential 200 s
past its expiry: the run blocks forever with zero renewal calls, zero
exchange POSTs, and the lock never released. -/
theorem c1_getToken_deadlocks_instead_of_renewing :
    getToken c1State 800 c1Oracle =
      (Outcome.deadlock, { c1State with lockHeld := true }, ⟨0, 0, 0⟩) := by
  decide

/-- C2 counterexample: the claim says the no-audience retry happens only
when the provider rejects the request specifically because it does not
support the `audience` parameter.  Here the first response is an HTTP 500
whose body's OAuth error field is `internal_error` — a rejection that is
not about the `audience` parameter — yet the code still performs the
second POST without `audience` (two exchange POSTs) and returns its
token. -/
theorem c2_retry_fires_on_unrelated_rejection :
    (getToken c2State 10 c2Oracle).1 = Outcome.ok "fallback-id" ∧
    (getToken c2State 10 c2Oracle).2.2.exchangePosts = 2 ∧
    c2Oracle.r1.status = 500 ∧
    c2Oracle.r1.errorField = some "internal_error" := by
  decide

/-- C2 (amended): during the audience exchange, the retry without the
`audience` parameter is performed whenever the first response has any
non-200 status, regardless of the reason for the rejection; exactly one
retry is made, and when the retry returns a 200 response carrying an
`id_token`, that token is what `get_token` returns. -/
theorem c2_amended_retry_on_any_non_200 (s : ProviderState) (now : Nat)
    (c : Credentials) (o : GetTokenOracle) (t tok : String)
    (hl : s.lockHeld = false) (hc : s.credentials = some c)
    (hv : c.valid now = true) (htok : c.token = some tok) (hne : tok ≠ "")
    (hbuf : s.tokenExpiry = none ∨ ∃ e, s.tokenExpiry = some e ∧ now + 300 < e)
    (h1 : o.r1.status ≠ 200) (h2 : o.r2.status = 200)
    (ht : o.r2.idToken = some t) :
    (getToken s now o).1 = Outcome.ok t ∧
    (getToken s now o).2.2.exchangePosts = 2 := by
  have hexp := expired_eq_false_of_valid c now hv
  obtain ⟨hres, hcon, hren, hpost⟩ := getToken_fresh_eval s now c o hl hc hexp hbuf
  have hu := credentialsUnusable_of_token c tok htok hne
  have hex := exchangePhase_fallback c o.r1 o.r2 t hu h1 h2 ht
  constructor
  · rw [hres, hex]
  · rw [hpost, hex]

/-- C2 witness: the amended theorem applied to the concrete rejected-
then-granted run. -/
theorem c2_amended_retry_on_any_non_200_witness :
    (getToken c2State 10 c2Oracle).1 = Outcome.ok "fallback-id" ∧
    (getToken c2State 10 c2Oracle).2.2.exchangePosts = 2 :=
  c2_amended_retry_on_any_non_200 c2State 10 c2Cred c2Oracle "fallback-id" "at"
    rfl rfl (by decide) rfl (by decide)
    (Or.inr ⟨100000, rfl, by omega⟩) (by decide) rfl rfl

/-- C5: for a credential with a valid, non-expired access token and
`now < expiry − 5min`, `get_token` performs zero renewal network calls
and zero consent flows, and does perform the audience exchange call. -/
theorem c5_fresh_credential_only_exchange (s : ProviderState) (now e : Nat)
    (c : Credentials) (o : GetTokenOracle) (tok : String)
    (hl : s.lockHeld = false) (hc : s.credentials = some c)
    (hv : c.valid now = true) (htok : c.token = some tok) (hne : tok ≠ "")
    (he : s.tokenExpiry = some e) (hbuf : now + 300 < e) :
    (getToken s now o).2.2.renewNetCalls = 0 ∧
    (getToken s now o).2.2.consentCalls = 0 ∧
    1 ≤ (getToken s now o).2.2.exchangePosts := by
  have hexp := expired_eq_false_of_valid c now hv
  obtain ⟨hres, hcon, hren, hpost⟩ :=
    getToken_fresh_eval s now c o hl hc hexp (Or.inr ⟨e, he, hbuf⟩)
  refine ⟨hren, hcon, ?_⟩
  rw [hpost]
  exact exchangePhase_posts_of_usable c o.r1 o.r2
    (credentialsUnusable_of_token c tok htok hne)

/-- C5 witness: the theorem applied to a credential expiring at
t = 10000, read at t = 100. -/
theorem c5_fresh_credential_only_exchange_witness :
    (getToken c5State 100 c5Oracle).2.2.renewNetCalls = 0 ∧
    (getToken c5State 100 c5Oracle).2.2.consentCalls = 0 ∧
    1 ≤ (getToken c5State 100 c5Oracle).2.2.exchangePosts :=
  c5_fresh_credential_only_exchange c5State 100 10000 c5Cred c5Oracle "at"
    rfl rfl (by decide) rfl (by decide) rfl (by omega)

/-- C7: the claim asserts the per-instance lock serialises renewals so
that concurrent near-expiry `get_token` calls produce exactly one renewal
network call.  On the code even a single near-expiry call produces zero
renewal calls and never returns: with a credential 270 s from expiry
(not yet `expired` for the google-auth 225 s skew, but inside the code's
own 300 s buffer) the line-308 `_refresh_token` call re-acquires the
non-reentrant lock and deadlocks, leaving the lock held forever — every
concurrent caller then blocks behind it. -/
theorem c7_single_caller_deadlocks_holding_lock :
    getToken c7State 1730 c7Oracle =
      (Outcome.deadlock, { c7State with lockHeld := true }, ⟨0, 0, 0⟩) := by
  decide

/-- C10: when, after the consent-flow and renewal steps, the credential
is absent or its access token is unset (Python-falsy: `None` or the
empty string), the line-310 guard raises
`RuntimeError("Failed to obtain valid credentials")` and no POST to the
token endpoint is made — shown for the guard-plus-exchange phase as run
on any such credential, and end-to-end for a `get_token` call that
reaches the guard with a token-less credential. -/
theorem c10_no_exchange_without_usable_token (oc : Option Credentials)
    (r1 r2 : HttpResponse) (s : ProviderState) (now : Nat) (o : GetTokenOracle)
    (c : Credentials) (h : credentialsUnusable oc = true)
    (hl : s.lockHeld = false) (hc : s.credentials = some c)
    (hcu : credentialsUnusable (some c) = true) (hexp : c.expired now = false)
    (hbuf : s.tokenExpiry = none ∨ ∃ e, s.tokenExpiry = some e ∧ now + 300 < e) :
    (exchangePhase oc r1 r2).1 =
      Outcome.error "Failed to obtain valid credentials" ∧
    (exchangePhase oc r1 r2).2.exchangePosts = 0 ∧
    (getToken s now o).1 =
      Outcome.error "Failed to obtain valid credentials" ∧
    (getToken s now o).2.2.exchangePosts = 0 := by
  obtain ⟨hres, hcon, hren, hpost⟩ := getToken_fresh_eval s now c o hl hc hexp hbuf
  have hx := exchangePhase_unusable oc r1 r2 h
  have hx2 := exchangePhase_unusable (some c) o.r1 o.r2 hcu
  refine ⟨?_, ?_, ?_, ?_⟩
  · rw [hx]
  · rw [hx]; rfl
  · rw [hres, hx2]
  · rw [hpost, hx2]; rfl

/-- C10 witness: the theorem applied to a state whose credential has no
access token. -/
theorem c10_no_exchange_without_usable_token_witness :
    (exchangePhase (some c10Cred) c10Oracle.r1 c10Oracle.r2).1 =
      Outcome.error "Failed to obtain valid credentials" ∧
    (exchangePhase (some c10Cred) c10Oracle.r1 c10Oracle.r2).2.exchangePosts = 0 ∧
    (getToken c10State 500 c10Oracle).1 =
      Outcome.error "Failed to obtain valid credentials" ∧
    (getToken c10State 500 c10Oracle).2.2.exchangePosts = 0 :=
  c10_no_exchange_without_usable_token (some c10Cred) c10Oracle.r1 c10Oracle.r2
    c10State 500 c10Oracle c10Cred rfl rfl rfl rfl rfl (Or.inl rfl)

/-- C3 counterexample: the claim says a transient renewal failure is
surfaced to the foreground caller of `get_token` as a failure of that
call.  On the code neither the renewal method nor `get_token` surfaces
it: `_refresh_token` on an expired credential whose renewal call fails
transiently returns normally (`ok`) and keeps the credential after one
renewal network call; and a foreground `get_token` under the same
conditions deadlocks on the non-reentrant lock with zero renewal calls —
no failure reaches any caller. -/
theorem c3_transient_failure_swallowed_concrete :
    (refreshToken c3State 800 (.failure false) (.success c3Cred) true).1 =
      Outcome.ok () ∧
    (refreshToken c3State 800 (.failure false)
        (.success c3Cred) true).2.1.credentials = some c3Cred ∧
    (refreshToken c3State 800 (.failure false)
        (.success c3Cred) true).2.2.renewNetCalls = 1 ∧
    (getToken c3State 800
        ⟨.success c3Cred, true, .failure false, .success c3Cred, true,
          ⟨200, some "idt", none⟩, ⟨200, some "idt2", none⟩⟩).1 =
      Outcome.deadlock := by
  decide

/-- C3 (amended): a transient (non-invalid-grant) renewal failure is
caught and logged inside `_refresh_token` and never propagated: the
method returns normally after its single renewal network call, with the
in-memory credential and cache file left unchanged, so no caller of the
renewal observes an exception (and a foreground `get_token` needing
renewal deadlocks on the non-reentrant lock before the network call). -/
theorem c3_amended_transient_failure_not_raised (s : ProviderState)
    (now : Nat) (c : Credentials) (r : String) (fo : FlowOutcome) (dk : Bool)
    (hl : s.lockHeld = false) (hc : s.credentials = some c)
    (hv : c.valid now = false) (hr : c.refreshToken = some r) :
    (refreshToken s now (.failure false) fo dk).1 = Outcome.ok () ∧
    (refreshToken s now (.failure false) fo dk).2.1.credentials =
      s.credentials ∧
    (refreshToken s now (.failure false) fo dk).2.1.cacheFile = s.cacheFile ∧
    (refreshToken s now (.failure false) fo dk).2.2.renewNetCalls = 1 := by
  rw [refreshToken_failure_eval s now c r false fo dk hl hc hv hr]
  exact ⟨rfl, rfl, rfl, rfl⟩

/-- C3 witness: the amended theorem at the concrete expired
credential. -/
theorem c3_amended_transient_failure_not_raised_witness :
    (refreshToken c3State 800 (.failure false) (.success c3Cred) true).1 =
      Outcome.ok () ∧
    (refreshToken c3State 800 (.failure false)
        (.success c3Cred) true).2.1.credentials = c3State.credentials ∧
    (refreshToken c3State 800 (.failure false)
        (.success c3Cred) true).2.1.cacheFile = c3State.cacheFile ∧
    (refreshToken c3State 800 (.failure false)
        (.success c3Cred) true).2.2.renewNetCalls = 1 :=
  c3_amended_transient_failure_not_raised c3State 800 c3Cred "rt"
    (.success c3Cred) true rfl rfl (by decide) rfl

/-- C4: a renewal network call rejected with `invalid_grant` results in:
the call returning normally after exactly one renewal attempt (the same
refresh token is not retried), the in-memory credential and the on-disk
cache file both absent afterwards, and the next `get_token` call
initiating exactly one consent-flow attempt. -/
theorem c4_invalid_grant_full_invalidation (s : ProviderState)
    (now now2 : Nat) (c : Credentials) (r : String) (fo : FlowOutcome)
    (dk : Bool) (o2 : GetTokenOracle)
    (hl : s.lockHeld = false) (hc : s.credentials = some c)
    (hv : c.valid now = false) (hr : c.refreshToken = some r) :
    (refreshToken s now (.failure true) fo dk).1 = Outcome.ok () ∧
    (refreshToken s now (.failure true) fo dk).2.1.credentials = none ∧
    (refreshToken s now (.failure true) fo dk).2.1.cacheFile = none ∧
    (refreshToken s now (.failure true) fo dk).2.2.renewNetCalls = 1 ∧
    (getToken (refreshToken s now (.failure true) fo dk).2.1 now2
        o2).2.2.consentCalls = 1 := by
  rw [refreshToken_failure_eval s now c r true fo dk hl hc hv hr]
  refine ⟨rfl, rfl, rfl, rfl, ?_⟩
  exact getToken_consent_once_of_no_credentials _ now2 o2 rfl rfl

/-- C4 witness: the theorem at the concrete expired credential, with a
follow-up `get_token` at t = 2000. -/
theorem c4_invalid_grant_full_invalidation_witness :
    (refreshToken c4State 800 (.failure true) (.success c4Cred) true).1 =
      Outcome.ok () ∧
    (refreshToken c4State 800 (.failure true)
        (.success c4Cred) true).2.1.credentials = none ∧
    (refreshToken c4State 800 (.failure true)
        (.success c4Cred) true).2.1.cacheFile = none ∧
    (refreshToken c4State 800 (.failure true)
        (.success c4Cred) true).2.2.renewNetCalls = 1 ∧
    (getToken (refreshToken c4State 800 (.failure true)
        (.success c4Cred) true).2.1 2000 c4Oracle).2.2.consentCalls = 1 :=
  c4_invalid_grant_full_invalidation c4State 800 2000 c4Cred "rt"
    (.success c4Cred) true c4Oracle rfl rfl (by decide) rfl

/-- C6: from any prior lock-free state, `clear_cache` returns normally
leaving no in-memory credential and no cache file, is idempotent, and a
following `get_token` triggers exactly one consent-flow attempt. -/
theorem c6_clearCache_then_consent_once (s : ProviderState) (now : Nat)
    (o : GetTokenOracle) (hl : s.lockHeld = false) :
    (clearCache s).1 = Outcome.ok () ∧
    (clearCache s).2.credentials = none ∧
    (clearCache s).2.cacheFile = none ∧
    clearCache (clearCache s).2 = clearCache s ∧
    (getToken (clearCache s).2 now o).2.2.consentCalls = 1 := by
  have h1 : clearCache s =
      (.ok (), { s with cacheFile := none, credentials := none }) := by
    unfold clearCache
    rw [if_neg (by rw [hl]; exact Bool.false_ne_true)]
  rw [h1]
  refine ⟨rfl, rfl, rfl, ?_, ?_⟩
  · unfold clearCache
    rw [if_neg (by simp [hl])]
  · exact getToken_consent_once_of_no_credentials _ now o rfl hl

/-- C6 witness: the theorem at a concrete non-trivial prior state. -/
theorem c6_clearCache_then_consent_once_witness :
    (clearCache c6State).1 = Outcome.ok () ∧
    (clearCache c6State).2.credentials = none ∧
    (clearCache c6State).2.cacheFile = none ∧
    clearCache (clearCache c6State).2 = clearCache c6State ∧
    (getToken (clearCache c6State).2 100 c6Oracle).2.2.consentCalls = 1 :=
  c6_clearCache_then_consent_once c6State 100 c6Oracle rfl

/-- C8: `stop` is idempotent — a second call changes nothing and cannot
raise — and once the stop event is set the background loop's
interruptible wait makes it exit at its very next check, running zero
further renewal ticks instead of waiting out a refresh interval. -/
theorem c8_stop_idempotent_and_loop_exits (s : ProviderState)
    (ticks : List TickOracle) :
    stop (stop s) = stop s ∧
    (stop s).stopSet = true ∧
    refreshLoop (stop s) ticks = some (stop s, 0) := by
  refine ⟨rfl, rfl, ?_⟩
  cases ticks with
  | nil => rfl
  | cons t ts =>
    unfold refreshLoop
    rw [if_pos (show (stop s).stopSet = true from rfl)]

/-- C9: a disk failure while persisting the credential never propagates:
the consent operation still returns normally with the new in-memory
credential set, and the renewal operation still returns normally with
the refreshed in-memory credential set; in both cases the cache file is
simply left as it was. -/
theorem c9_save_failure_never_propagates (s s2 : ProviderState)
    (now now2 : Nat) (fc c : Credentials) (tok r : String) (exp : Option Nat)
    (fo : FlowOutcome)
    (hl : s2.lockHeld = false) (hc : s2.credentials = some c)
    (hv : c.valid now2 = false) (hr : c.refreshToken = some r) :
    (performOauthFlow s now (.success fc) false).1 = Outcome.ok () ∧
    (performOauthFlow s now (.success fc) false).2.1.credentials = some fc ∧
    (performOauthFlow s now (.success fc) false).2.1.cacheFile = s.cacheFile ∧
    (refreshToken s2 now2 (.success tok exp) fo false).1 = Outcome.ok () ∧
    (refreshToken s2 now2 (.success tok exp) fo false).2.1.credentials =
      some (c.doRefresh tok exp) ∧
    (refreshToken s2 now2 (.success tok exp) fo false).2.1.cacheFile =
      s2.cacheFile := by
  have hflow := performOauthFlow_success s now fc false
  have hrt := refreshToken_success_eval s2 now2 c r tok exp fo false hl hc hv hr
  rw [hflow, hrt]
  rw [saveCredentials_of_diskFail, saveCredentials_of_diskFail]
  refine ⟨rfl, ?_, ?_, rfl, ?_, ?_⟩
  · rw [updateExpiry_credentials]
  · rw [updateExpiry_cacheFile]
  · show (updateExpiryFromCredentials _ now2).credentials = _
    rw [updateExpiry_credentials]
  · show (updateExpiryFromCredentials _ now2).cacheFile = _
    rw [updateExpiry_cacheFile]

/-- C9 witness: the theorem at a concrete flow credential and a concrete
expired credential, both with the disk failing. -/
theorem c9_save_failure_never_propagates_witness :
    (performOauthFlow c9State 100 (.success c9Cred) false).1 = Outcome.ok () ∧
    (performOauthFlow c9State 100
        (.success c9Cred) false).2.1.credentials = some c9Cred ∧
    (performOauthFlow c9State 100
        (.success c9Cred) false).2.1.cacheFile = c9State.cacheFile ∧
    (refreshToken c9State 900 (.success "tok2" (some 6000))
        (.success c9Cred) false).1 = Outcome.ok () ∧
    (refreshToken c9State 900 (.success "tok2" (some 6000))
        (.success c9Cred) false).2.1.credentials =
      some (c9Old.doRefresh "tok2" (some 6000)) ∧
    (refreshToken c9State 900 (.success "tok2" (some 6000))
        (.success c9Cred) false).2.1.cacheFile = c9State.cacheFile :=
  c9_save_failure_never_propagates c9State c9State 100 900 c9Cred c9Old
    "tok2" "rt9" (some 6000) (.success c9Cred) rfl rfl (by decide) rfl

end IapAuth
